import Mathlib

/-!
Verification of the selection / data-resolution / rendering pipeline of
`docs/app.js`, a Leaflet-based viewer for time-indexed geospatial grids.

JavaScript values and numeric coercions are shallowly embedded; each source
function is translated under its own name (`colorScale`, `ymdToFolder`,
`folderToISODate`, `fetchJson`, `loadLayerIndex`, `loadGrid`, `drawGrid`,
`refresh`, `setDateFromLatest`, `boot`).  Network reads are asynchronous in
the source; here each function that awaits a fetch takes the outcome of that
fetch as an explicit parameter.  A thrown JavaScript exception is modelled as
an `Except.error` carrying the message string.
-/

namespace App

/-- JavaScript numbers as used by this program.  `fin q` is a finite number,
modelled exactly as a rational; `nf` is a non-finite number (`NaN` or an
infinity).  JSON cannot encode non-finite numbers, so in this program `nf`
arises only from NaN-producing coercions and arithmetic; accordingly `nf`
behaves like `NaN` in the operations below. -/
inductive JSNum where
  | fin (q : ℚ)
  | nf
deriving DecidableEq, Repr

/-- Source `isFinite(v)` for an already-numeric argument. -/
def isFiniteJS : JSNum → Bool
  | .fin _ => true
  | .nf => false

/-- JavaScript subtraction on numbers (`NaN` absorbs). -/
def jsSub : JSNum → JSNum → JSNum
  | .fin a, .fin b => .fin (a - b)
  | _, _ => .nf

/-- JavaScript multiplication on numbers (`NaN` absorbs). -/
def jsMul : JSNum → JSNum → JSNum
  | .fin a, .fin b => .fin (a * b)
  | _, _ => .nf

/-- JavaScript division on numbers: a finite number divided by `0` is
non-finite (`±Infinity` or `NaN`); `NaN` absorbs. -/
def jsDiv : JSNum → JSNum → JSNum
  | .fin a, .fin b => if b = 0 then .nf else .fin (a / b)
  | _, _ => .nf

/-- Source `Math.min(a, b)` (`NaN` absorbs). -/
def jsMinN : JSNum → JSNum → JSNum
  | .fin a, .fin b => .fin (min a b)
  | _, _ => .nf

/-- Source `Math.max(a, b)` (`NaN` absorbs). -/
def jsMaxN : JSNum → JSNum → JSNum
  | .fin a, .fin b => .fin (max a b)
  | _, _ => .nf

/-- Source `Math.round(x)`: floor of `x + 1/2` (also for negative `x`), `NaN`
passed through. -/
def jsRound : JSNum → JSNum
  | .fin q => .fin ((⌊q + 1/2⌋ : ℤ) : ℚ)
  | .nf => .nf

/-- The `d || 1` fallback used on the denominator in `colorScale`: a falsy
number (`0` or `NaN`) is replaced by `1`. -/
def jsOrOne : JSNum → JSNum
  | .fin q => if q = 0 then .fin 1 else .fin q
  | .nf => .fin 1

/-- The components of an `rgba(r,g,b,a)` color string as produced by
`colorScale`.  The channel values are the numbers interpolated into the
string; the alpha is always a literal in the source. -/
structure Color where
  r : JSNum
  g : JSNum
  b : JSNum
  a : ℚ
deriving DecidableEq, Repr

/-- Source `colorScale(v, vmin, vmax)` from `docs/app.js`:

```js
function colorScale(v, vmin, vmax){
  if (!isFinite(v)) return "rgba(0,0,0,0)";
  const x = Math.max(0, Math.min(1, (v - vmin) / (vmax - vmin || 1)));
  const r = Math.round(255 * x);
  const b = Math.round(255 * (1 - x));
  return `rgba(${r},0,${b},0.55)`;
}
``` -/
def colorScale (v vmin vmax : JSNum) : Color :=
  if !(isFiniteJS v) then ⟨.fin 0, .fin 0, .fin 0, 0⟩
  else
    let x := jsMaxN (.fin 0) (jsMinN (.fin 1) (jsDiv (jsSub v vmin) (jsOrOne (jsSub vmax vmin))))
    { r := jsRound (jsMul (.fin 255) x)
      g := .fin 0
      b := jsRound (jsMul (.fin 255) (jsSub (.fin 1) x))
      a := 55/100 }

/-- Clamp a rational into `[0, 1]`. -/
def clamp01 (x : ℚ) : ℚ := max 0 (min 1 x)

/-! ## Date conversions -/

/-- Source `ymdToFolder(dateStr)`: `(dateStr || "").replaceAll("-", "")`, i.e.
`"YYYY-MM-DD" -> "YYYYMMDD"`.  Strings are modelled as `List Char`; on a
string argument the `|| ""` guard only replaces the empty string by itself,
and `replaceAll("-", "")` removes every hyphen. -/
def ymdToFolder (dateStr : List Char) : List Char := dateStr.filter (· ≠ '-')

/-- Source `folderToISODate(ymd)`: `"YYYYMMDD" -> "YYYY-MM-DD"` via the template
`` `${ymd.slice(0,4)}-${ymd.slice(4,6)}-${ymd.slice(6,8)}` ``. -/
def folderToISODate (ymd : List Char) : List Char :=
  ymd.take 4 ++ '-' :: ((ymd.drop 4).take 2 ++ '-' :: (ymd.drop 6).take 2)

/-- String-typed wrapper for `ymdToFolder`. -/
def ymdToFolderS (s : String) : String := ⟨ymdToFolder s.data⟩

/-- String-typed wrapper for `folderToISODate`. -/
def folderToISODateS (s : String) : String := ⟨folderToISODate s.data⟩

/-! ## JavaScript values and JSON -/

/-- A JavaScript value as handled by this program: the JSON value grammar
plus `undefined` (the result of reading an absent property) and `nan` (a `NaN`
produced by a coercion — JSON itself cannot encode non-finite numbers). -/
inductive JVal where
  | null
  | undefined
  | nan
  | bool (b : Bool)
  | num (q : ℚ)
  | str (s : String)
  | arr (xs : List JVal)
  | obj (fields : List (String × JVal))

/-- JavaScript truthiness: `undefined`, `null`, `false`, `0`, `NaN` and the
empty string are falsy; every other value, in particular every array and
object, is truthy. -/
def jsFalsy : JVal → Bool
  | .null | .undefined | .nan => true
  | .bool b => !b
  | .num q => q == 0
  | .str s => s == ""
  | .arr _ | .obj _ => false

/-- Operator `a || b` on JavaScript values. -/
def jsOr (a b : JVal) : JVal := if jsFalsy a then b else a

/-- Operator `a ?? b` on JavaScript values (nullish coalescing). -/
def jsNullish : JVal → JVal → JVal
  | .null, b => b
  | .undefined, b => b
  | a, _ => a

/-- Property read `v?.k` (and plain `v.k` where `v` is known non-nullish):
`undefined` on a nullish base and on any non-object; on an object, the
value of the last binding of the key (`JSON.parse` keeps the last
duplicate), or `undefined` when the key is absent.  Built-in properties
(e.g. `length`) are never read by name in this program and are not
modelled. -/
def jsGetOpt (v : JVal) (k : String) : JVal :=
  match v with
  | .obj fs => (fs.reverse.lookup k).getD .undefined
  | _ => .undefined

/-- True unless the value is `null` or `undefined` — reading a property of
such a value throws a `TypeError`. -/
def notNullish : JVal → Bool
  | .null => false
  | .undefined => false
  | _ => true

/-- Numeric value of a non-empty all-digit character list. -/
def digitsVal (l : List Char) : ℕ :=
  l.foldl (fun acc c => 10 * acc + (c.toNat - 48)) 0

/-- Coercion of a string to a number (`Number(s)` / `ToNumber`), for the
decimal fragment of the JavaScript numeric-string grammar actually used by
this program's data: surrounding whitespace, an optional sign, and
`digits [. digits]` (at least one digit).  A whitespace-only string is `0`;
anything else (hex, exponents, `Infinity`) is treated as `NaN`. -/
def strToNum (s : String) : JSNum :=
  let t := ((s.data.dropWhile Char.isWhitespace).reverse.dropWhile Char.isWhitespace).reverse
  let core : List Char → JSNum := fun l =>
    let ip := l.takeWhile Char.isDigit
    match l.dropWhile Char.isDigit with
    | [] => if ip.isEmpty then .nf else .fin (digitsVal ip)
    | '.' :: frac =>
      if frac.all Char.isDigit && !(ip.isEmpty && frac.isEmpty) then
        .fin ((digitsVal ip : ℚ) + (digitsVal frac : ℚ) / (10 : ℚ) ^ frac.length)
      else .nf
    | _ => .nf
  match t with
  | [] => .fin 0
  | '-' :: rest =>
    match core rest with
    | .fin q => .fin (-q)
    | .nf => .nf
  | '+' :: rest => core rest
  | rest => core rest

/-- Numeric coercion `ToNumber` of a JavaScript value, as applied by
`isFinite`, arithmetic, and `Number(...)`.  An array coerces through its
joined string form: empty array to `0`, one-element array through its
element, longer arrays to `NaN`; an object gives `NaN` (via
`"[object Object]"`).  (`[undefined]` coercing to `0` is not modelled;
parsed JSON cannot contain `undefined` inside an array.) -/
def toNum : JVal → JSNum
  | .num q => .fin q
  | .nan => .nf
  | .null => .fin 0
  | .undefined => .nf
  | .bool b => .fin (if b then 1 else 0)
  | .str s => strToNum s
  | .arr [] => .fin 0
  | .arr [x] => toNum x
  | .arr (_ :: _ :: _) => .nf
  | .obj _ => .nf

/-- Display form of a rational interpolated into a template string.  The
JavaScript engine prints decimal expansions of doubles; every number this
program interpolates is integer-valued, so only the first branch is ever
exercised — the fractional branch is a display-only approximation. -/
def ratToString (q : ℚ) : String :=
  if q.den = 1 then toString q.num else toString q.num ++ "/" ++ toString q.den

mutual

/-- String coercion `ToString` of a JavaScript value, as applied by template
interpolation and string concatenation.  The flag marks an array element
position, where `null` and `undefined` print as the empty string. -/
def jsToStringAux : Bool → JVal → String
  | true, .null => ""
  | true, .undefined => ""
  | false, .null => "null"
  | false, .undefined => "undefined"
  | _, .nan => "NaN"
  | _, .bool b => cond b "true" "false"
  | _, .num q => ratToString q
  | _, .str s => s
  | _, .arr xs => jsToStringList xs
  | _, .obj _ => "[object Object]"

/-- Elements of an array joined by commas (`Array.prototype.toString`). -/
def jsToStringList : List JVal → String
  | [] => ""
  | [x] => jsToStringAux true x
  | x :: xs => jsToStringAux true x ++ "," ++ jsToStringList xs

end

/-- String coercion of a value in template position. -/
def jsToString (v : JVal) : String := jsToStringAux false v

/-- Coercion `ToPrimitive`: arrays and objects become their string form,
primitives are unchanged. -/
def toPrim : JVal → JVal
  | .arr xs => .str (jsToStringList xs)
  | .obj _ => .str "[object Object]"
  | p => p

/-- JavaScript `+` on values: after `ToPrimitive`, if either side is a
string the operands are concatenated as strings, otherwise both are
coerced to numbers and added (`NaN` absorbs). -/
def jsAdd (a b : JVal) : JVal :=
  match toPrim a, toPrim b with
  | .str sa, pb => .str (sa ++ jsToStringAux false pb)
  | pa, .str sb => .str (jsToStringAux false pa ++ sb)
  | pa, pb =>
    match toNum pa, toNum pb with
    | .fin x, .fin y => .num (x + y)
    | _, _ => .nan

/-- Source `parseInt(s, 10)`: skip leading whitespace, read an optional
sign and then the maximal leading run of decimal digits; `NaN` (here
`none`) when that run is empty. -/
def parseIntB10 (s : String) : Option ℤ :=
  let lead : List Char → Option ℕ := fun l =>
    let ds := l.takeWhile Char.isDigit
    if ds.isEmpty then none else some (digitsVal ds)
  match s.data.dropWhile Char.isWhitespace with
  | '-' :: rest => (lead rest).map (fun n => -(n : ℤ))
  | '+' :: rest => (lead rest).map (fun n => (n : ℤ))
  | rest => (lead rest).map (fun n => (n : ℤ))

/-- Source `Number(x).toFixed(2)`: the integer closest to `100 * x` (ties
toward the larger), printed with two decimals; `"NaN"` for a non-finite
argument. -/
def toFixed2 : JSNum → String
  | .nf => "NaN"
  | .fin q =>
    let m : ℕ := (⌊q * 100 + 1/2⌋ : ℤ).natAbs
    let core := toString (m / 100) ++ "." ++ (if m % 100 < 10 then "0" else "") ++ toString (m % 100)
    if q < 0 then "-" ++ core else core

/-! ## Resource resolution (`fetchJson` and its callers) -/

/-- The observable outcome of one `fetch(url)` followed by `res.json()`:
an HTTP non-success status, a body that fails to parse as JSON, a
transport-level rejection, or a parsed JSON value. -/
inductive FetchOutcome where
  | notOk (status : ℕ)
  | badJson (msg : String)
  | netErr (msg : String)
  | ok (v : JVal)

/-- Source `fetchJson(url)`: throws `` `HTTP ${res.status} ${url}` `` on a
non-success status; otherwise returns the parsed JSON.  A parse failure or
transport failure rejects with the engine's message. -/
def fetchJson (url : String) (resp : FetchOutcome) : Except String JVal :=
  match resp with
  | .notOk code => .error ("HTTP " ++ toString code ++ " " ++ url)
  | .badJson m => .error m
  | .netErr m => .error m
  | .ok v => .ok v

/-- Source `loadLatestDate()`: fetch `./data/latest.json` and fail with
`"latest.json missing date"` when `j?.date` is falsy. -/
def loadLatestDate (resp : FetchOutcome) : Except String JVal :=
  match fetchJson "./data/latest.json" resp with
  | .error m => .error m
  | .ok j =>
    if jsFalsy (jsGetOpt j "date") then .error "latest.json missing date"
    else .ok (jsGetOpt j "date")

/-- Source `loadLayerIndex(ymd, kind)`: a bare `fetchJson` of
`./data/{ymd}/{kind}/index.json` — no structural validation of the body. -/
def loadLayerIndex (ymd kind : String) (resp : FetchOutcome) : Except String JVal :=
  fetchJson ("./data/" ++ ymd ++ "/" ++ kind ++ "/index.json") resp

/-- Source `loadGrid(ymd, kind, hhmm)`: a bare `fetchJson` of
`./data/{ymd}/{kind}/{hhmm}.json`. -/
def loadGrid (ymd kind hhmm : String) (resp : FetchOutcome) : Except String JVal :=
  fetchJson ("./data/" ++ ymd ++ "/" ++ kind ++ "/" ++ hhmm ++ ".json") resp

/-! ## Rendering (`drawGrid`) -/

/-- One `L.rectangle(...)` as added to `gridLayer` by the cell loop of
`drawGrid`: the raw corners `[[c.lat, c.lon], [c.lat + dlat, c.lon + dlon]]`,
the `colorScale` fill, and the tooltip `` `${Number(val).toFixed(2)} ${unit}` ``. -/
structure Rect where
  corner1 : JVal × JVal
  corner2 : JVal × JVal
  fillColor : Color
  tooltip : String

/-- Contents of the `legendBody` element: either the structured innerHTML
written by `drawGrid` (layer kind upper-cased, ISO date, time text, numeric
range, unit) or a plain text assignment. -/
inductive LegendState where
  | html (kindUpper : String) (dateIso : String) (timeText : String)
      (vmin vmax : ℚ) (unit : JVal)
  | text (s : String)

/-- The rectangle built for one cell `c` of the snapshot. -/
def mkRect (dlat dlon : JVal) (vmin vmax : ℚ) (unit : JVal) (c : JVal) : Rect :=
  let lat1 := jsGetOpt c "lat"
  let lon1 := jsGetOpt c "lon"
  let val := jsGetOpt c "val"
  { corner1 := (lat1, lon1)
    corner2 := (jsAdd lat1 dlat, jsAdd lon1 dlon)
    fillColor := colorScale (toNum val) (toNum (.num vmin)) (toNum (.num vmax))
    tooltip := toFixed2 (toNum val) ++ " " ++ jsToString unit }

/-- Source `drawGrid(grid, indexMeta)`.  It first calls
`gridLayer.clearLayers()` — the prior rectangles are discarded
unconditionally — then reads the cell geometry, unit and range from
`indexMeta` with defaults (`2.0`, `2.0`, `""`, `0`, `1`), writes the legend,
and adds one rectangle per entry of `grid?.cells || []`.

A thrown `TypeError` is modelled as an `Except.error` (all are caught by
`refresh`): `folderToISODate(currentDate)` on a non-string date,
`vmin.toFixed(2)` on a non-numeric range, iterating a non-iterable `cells`,
and reading `.lat` of a nullish cell.  A string `cells` value iterates over
its characters, as `for...of` does. -/
def drawGrid (prior : List Rect) (grid indexMeta : JVal) (kind : String)
    (curDate : JVal) (timeText : String) : Except String (LegendState × List Rect) :=
  let _ := prior
  let dlat := jsNullish (jsGetOpt (jsGetOpt indexMeta "cell") "dlat") (.num 2)
  let dlon := jsNullish (jsGetOpt (jsGetOpt indexMeta "cell") "dlon") (.num 2)
  let unit := jsNullish (jsGetOpt indexMeta "unit") (.str "")
  let vminJ := jsNullish (jsGetOpt (jsGetOpt indexMeta "range") "vmin") (.num 0)
  let vmaxJ := jsNullish (jsGetOpt (jsGetOpt indexMeta "range") "vmax") (.num 1)
  match curDate with
  | .str dstr =>
    match vminJ, vmaxJ with
    | .num vmin, .num vmax =>
      let leg := LegendState.html kind.toUpper (folderToISODateS dstr) timeText vmin vmax unit
      match jsOr (jsGetOpt grid "cells") (.arr []) with
      | .arr cs =>
        if cs.all notNullish then .ok (leg, cs.map (mkRect dlat dlon vmin vmax unit))
        else .error "Cannot read properties of null (reading 'lat')"
      | .str s =>
        .ok (leg, s.data.map (fun ch => mkRect dlat dlon vmin vmax unit (.str ch.toString)))
      | _ => .error "cells is not iterable"
    | _, _ => .error "vmin.toFixed is not a function"
  | _ => .error "ymd.slice is not a function"

/-! ## The render pipeline (`refresh`) and boot -/

/-- The module-level mutable state of `docs/app.js`:
`currentDate` (the value `null` at load, normally a `"YYYYMMDD"` string
afterwards), `currentKind`, and the `times` list last stored by `refresh`. -/
structure AppGlobals where
  currentDate : JVal
  currentKind : String
  times : JVal

/-- The DOM state touched by the pipeline: the date input, the slider
(`min`, `max`, `value` — the value is a string, as DOM values are), the
time label, the status line, the legend body, and the rectangles currently
in `gridLayer`. -/
structure DOMState where
  dateInputValue : String
  sliderMin : ℤ
  sliderMax : ℤ
  sliderValue : String
  timeLabel : String
  status : String
  legend : LegendState
  gridRects : List Rect

/-- Result of one `refresh()` run: the new globals and DOM state, plus two
observations used to state the claims: the `hhmm` for which a grid snapshot
was fetched (if any), and the effective index at which `times` was read
(if reached). -/
structure RefreshOut where
  g : AppGlobals
  dom : DOMState
  fetchedSnapshot : Option String
  usedIndex : Option ℤ

/-- Source `catch` clause of `refresh`: clear the layer group, set the
error status, and replace the legend body text. -/
def catchClause (dom : DOMState) (msg : String) : DOMState :=
  { dom with
    gridRects := [],
    status := "Error: " ++ msg,
    legend := .text "Data missing or not generated yet." }

/-- Continuation of `refresh()` past the empty-times early return (source
lines from `timeSlider.min = 0` to the end of the `try` block), with the
globals `g1` already holding the new `times` list `ts` and `dom0` holding
the transient loading status: set the slider range, clamp the requested
index, resolve `times[i]`, fetch the snapshot and draw it.  Throws land in
`catchClause`. -/
def refreshTimes (g1 : AppGlobals) (dom0 : DOMState) (idx : JVal) (ts : List JVal)
    (gridFetch : String → FetchOutcome) : RefreshOut :=
  let dom1 := { dom0 with sliderMin := 0, sliderMax := (ts.length : ℤ) - 1 }
  let i0 : ℤ := (parseIntB10 (if dom1.sliderValue = "" then "0" else dom1.sliderValue)).getD 0
  let i : ℤ := max 0 (min ((ts.length : ℤ) - 1) i0)
  let dom2 := { dom1 with sliderValue := toString i }
  match ts.getD i.toNat .undefined with
  | .str hhmm =>
    let dom3 := { dom2 with
      timeLabel := hhmm.take 2 ++ ":" ++ (hhmm.drop 2).take 2 ++ " UTC" }
    match loadGrid (jsToString g1.currentDate) g1.currentKind hhmm (gridFetch hhmm) with
    | .error m => ⟨g1, catchClause dom3 m, some hhmm, some i⟩
    | .ok grid =>
      match drawGrid dom3.gridRects grid idx g1.currentKind g1.currentDate dom3.timeLabel with
      | .error m => ⟨g1, catchClause dom3 m, some hhmm, some i⟩
      | .ok (leg, rects) =>
        ⟨g1, { dom3 with
               legend := leg,
               gridRects := rects,
               status := "OK (updated: " ++
                 jsToString (jsOr (jsGetOpt idx "updated_utc") (.str "unknown")) ++ ")" },
         some hhmm, some i⟩
  | _ => ⟨g1, catchClause dom2 "hhmm.slice is not a function", none, some i⟩

/-- Source `refresh()`.  The two awaited fetches are passed in as outcomes:
`idxFetch` for the single `loadLayerIndex` request and `gridFetch hhmm` for
the `loadGrid` request of a given timestamp.  Every throw inside the `try`
block lands in `catchClause`; the function itself is total — no exception
propagates out of a run. -/
def refresh (g : AppGlobals) (dom : DOMState) (idxFetch : FetchOutcome)
    (gridFetch : String → FetchOutcome) : RefreshOut :=
  if jsFalsy g.currentDate then ⟨g, dom, none, none⟩
  else
    let dom0 := { dom with
      status := "Loading " ++ g.currentKind.toUpper ++ " " ++ jsToString g.currentDate ++ "..." }
    match loadLayerIndex (jsToString g.currentDate) g.currentKind idxFetch with
    | .error m => ⟨g, catchClause dom0 m, none, none⟩
    | .ok idx =>
      let tv := jsOr (jsGetOpt idx "times_utc") (.arr [])
      let g1 := { g with times := tv }
      let emptyBranch : RefreshOut :=
        ⟨g1, { dom0 with
               sliderMin := 0,
               sliderMax := 0,
               sliderValue := "0",
               timeLabel := "--:-- UTC",
               gridRects := [],
               status := "No times in " ++ g1.currentKind ++ "/index.json (yet)" }, none, none⟩
      match tv with
      | .arr ts =>
        if ts.length = 0 then emptyBranch
        else refreshTimes g1 dom0 idx ts gridFetch
      | _ => emptyBranch

/-- Source `setDateFromLatest()`.  On success, `currentDate` is assigned the
fetched value and the date input shows its ISO form.  `ok = false` records a
throw (propagated to the caller): either `loadLatestDate` failed, or the
fetched date was not a string — in that case `currentDate` was already
assigned before `folderToISODate(ymd)` threw. -/
structure SetDateOut where
  ok : Bool
  g : AppGlobals
  dom : DOMState

/-- Source `setDateFromLatest()` body. -/
def setDateFromLatest (latest : FetchOutcome) (g : AppGlobals) (dom : DOMState) : SetDateOut :=
  match loadLatestDate latest with
  | .error _ => ⟨false, g, dom⟩
  | .ok ymd =>
    let g1 := { g with currentDate := ymd }
    match ymd with
    | .str s => ⟨true, g1, { dom with dateInputValue := folderToISODateS s }⟩
    | _ => ⟨false, g1, dom⟩

/-- Source `boot()`.  `todayUtcIso` models
`new Date().toISOString().slice(0,10)`: `toISOString` always formats the
instant in UTC (suffix `Z`), so its first ten characters are the current
UTC calendar date, independent of the browser timezone.  When
`setDateFromLatest` throws, the catch block falls back to that date; in
either case a `refresh` run follows. -/
def boot (latest : FetchOutcome) (todayUtcIso : String) (g : AppGlobals) (dom : DOMState)
    (idxFetch : FetchOutcome) (gridFetch : String → FetchOutcome) : RefreshOut :=
  let s := setDateFromLatest latest g dom
  if s.ok then refresh s.g s.dom idxFetch gridFetch
  else
    refresh { s.g with currentDate := .str (ymdToFolderS todayUtcIso) }
      { s.dom with dateInputValue := todayUtcIso } idxFetch gridFetch

/-! ## Helper definitions and lemmas about the pipeline -/

/-- The effective index computed by the slider-clamping lines of `refresh`:
`parseInt(timeSlider.value || "0", 10)`, `NaN` replaced by `0`, then
clamped into `[0, times.length - 1]`. -/
def effIndex (sliderValue : String) (n : ℕ) : ℤ :=
  max 0 (min ((n : ℤ) - 1) ((parseIntB10 (if sliderValue = "" then "0" else sliderValue)).getD 0))

/-- Recognizer for string values. -/
def isStrJ : JVal → Bool
  | .str _ => true
  | _ => false

/-! ## Properties of the color scale -/

/-- On finite arguments with a non-degenerate range, `colorScale` computes the
rounded linear interpolation of the clamped normalised value. -/
theorem colorScale_fin (v vmin vmax : ℚ) (h : vmax - vmin ≠ 0) :
    colorScale (.fin v) (.fin vmin) (.fin vmax) =
      { r := .fin ((⌊255 * clamp01 ((v - vmin) / (vmax - vmin)) + 1/2⌋ : ℤ) : ℚ)
        g := .fin 0
        b := .fin ((⌊255 * (1 - clamp01 ((v - vmin) / (vmax - vmin))) + 1/2⌋ : ℤ) : ℚ)
        a := 55/100 } := by
  simp only [colorScale, isFiniteJS, Bool.not_true, Bool.false_eq_true, if_false, jsSub, jsOrOne,
    h, if_neg h, jsDiv, jsMinN, jsMaxN, jsMul, jsRound, clamp01]

/-- Monotonicity of `clamp01`. -/
theorem clamp01_mono {x y : ℚ} (h : x ≤ y) : clamp01 x ≤ clamp01 y :=
  max_le_max le_rfl (min_le_min le_rfl h)

/-- C7: for every non-finite value and every range, `colorScale` returns the
fully transparent color `rgba(0,0,0,0)`; in particular its alpha is `0`. -/
theorem claim_C7_colorScale_nonfinite_transparent (vmin vmax : JSNum) :
    colorScale .nf vmin vmax = ⟨.fin 0, .fin 0, .fin 0, 0⟩ ∧
    (colorScale .nf vmin vmax).a = 0 := ⟨rfl, rfl⟩

/-- C8: `colorScale` is total (it is a Lean function), and on a degenerate
range `vmax = vmin` the denominator `vmax - vmin || 1` is `1`, so the
normalised value is `clamp((value - vmin), 0, 1)` — no division by zero. -/
theorem claim_C8_colorScale_degenerate_range (v c : ℚ) :
    colorScale (.fin v) (.fin c) (.fin c) =
      { r := .fin ((⌊255 * clamp01 (v - c) + 1/2⌋ : ℤ) : ℚ)
        g := .fin 0
        b := .fin ((⌊255 * (1 - clamp01 (v - c)) + 1/2⌋ : ℤ) : ℚ)
        a := 55/100 } := by
  simp only [colorScale, isFiniteJS, Bool.not_true, Bool.false_eq_true, if_false, jsSub, sub_self,
    jsOrOne, if_pos, jsDiv, one_ne_zero, if_neg, div_one, jsMinN, jsMaxN, jsMul, jsRound, clamp01]

/-- C6 fails as stated: the claim quantifies over all `vmin ≠ vmax`, but with
a reversed range (`vmin = 1 > vmax = 0`) the red channel strictly decreases
and the blue channel strictly increases as the value increases from 0 to 1. -/
theorem claim_C6_counterexample :
    (1 : ℚ) ≠ 0 ∧ (0 : ℚ) ≤ 1 ∧
    (colorScale (.fin 0) (.fin 1) (.fin 0)).r = .fin 255 ∧
    (colorScale (.fin 1) (.fin 1) (.fin 0)).r = .fin 0 ∧
    (colorScale (.fin 0) (.fin 1) (.fin 0)).b = .fin 0 ∧
    (colorScale (.fin 1) (.fin 1) (.fin 0)).b = .fin 255 := by
  rw [colorScale_fin 0 1 0 (by norm_num), colorScale_fin 1 1 0 (by norm_num)]
  refine ⟨by norm_num, by norm_num, ?_, ?_, ?_, ?_⟩ <;>
    · simp only [clamp01]
      norm_num

/-- C6 (amended): for finite `value, vmin, vmax` with `vmin < vmax`, the red
channel of `colorScale` is monotone non-decreasing and the blue channel is
monotone non-increasing as the value increases. -/
theorem claim_C6_colorScale_monotone (v v' vmin vmax : ℚ)
    (hrange : vmin < vmax) (hv : v ≤ v') :
    ∃ r1 r2 b1 b2 : ℤ,
      (colorScale (.fin v) (.fin vmin) (.fin vmax)).r = .fin r1 ∧
      (colorScale (.fin v') (.fin vmin) (.fin vmax)).r = .fin r2 ∧
      (colorScale (.fin v) (.fin vmin) (.fin vmax)).b = .fin b1 ∧
      (colorScale (.fin v') (.fin vmin) (.fin vmax)).b = .fin b2 ∧
      r1 ≤ r2 ∧ b2 ≤ b1 := by
  have hd : vmax - vmin ≠ 0 := sub_ne_zero_of_ne (ne_of_gt hrange)
  have hdpos : (0 : ℚ) < vmax - vmin := sub_pos.mpr hrange
  have hx : clamp01 ((v - vmin) / (vmax - vmin)) ≤ clamp01 ((v' - vmin) / (vmax - vmin)) :=
    clamp01_mono (by gcongr)
  rw [colorScale_fin v vmin vmax hd, colorScale_fin v' vmin vmax hd]
  refine ⟨_, _, _, _, rfl, rfl, rfl, rfl, ?_, ?_⟩
  · exact Int.floor_le_floor (by nlinarith)
  · exact Int.floor_le_floor (by nlinarith)

/-- Witness for C6 (amended) at `vmin = 0 < vmax = 10`, `v = 0 ≤ v' = 1`. -/
theorem claim_C6_colorScale_monotone_witness :
    (0 : ℚ) < 10 ∧ (0 : ℚ) ≤ 1 ∧
    (∃ r1 r2 b1 b2 : ℤ,
      (colorScale (.fin 0) (.fin 0) (.fin 10)).r = .fin r1 ∧
      (colorScale (.fin 1) (.fin 0) (.fin 10)).r = .fin r2 ∧
      (colorScale (.fin 0) (.fin 0) (.fin 10)).b = .fin b1 ∧
      (colorScale (.fin 1) (.fin 0) (.fin 10)).b = .fin b2 ∧
      r1 ≤ r2 ∧ b2 ≤ b1) :=
  ⟨by norm_num, by norm_num,
    claim_C6_colorScale_monotone 0 1 0 10 (by norm_num) (by norm_num)⟩

/-! ## Properties of the date conversions -/

/-- A decimal digit is not a hyphen. -/
theorem isDigit_ne_dash {c : Char} (h : c.isDigit) : c ≠ '-' := by
  intro heq
  subst heq
  exact absurd h (by decide)

/-- C9: the two date conversions are mutually inverse on well-formed inputs:
an 8-digit date survives `folderToISODate` then `ymdToFolder`, and a
hyphenated all-digit date `y = "ABCD-EF-GH"` survives `ymdToFolder` then
`folderToISODate`.  Both functions are pure character rearrangements — no
locale or timezone is involved. -/
theorem claim_C9_date_roundtrip (x y : List Char) (a b c d e f g h : Char)
    (hx8 : x.length = 8) (hxd : ∀ ch ∈ x, ch.isDigit)
    (hyd : [a, b, c, d, e, f, g, h].all Char.isDigit = true)
    (hy : y = [a, b, c, d, '-', e, f, '-', g, h]) :
    ymdToFolder (folderToISODate x) = x ∧ folderToISODate (ymdToFolder y) = y := by
  simp only [List.all_cons, List.all_nil, Bool.and_eq_true, Bool.and_true] at hyd
  obtain ⟨ha, hb, hc, hd, he, hf, hg, hh⟩ := hyd
  constructor
  · have hkeep : ∀ l : List Char, l ⊆ x → l.filter (· ≠ '-') = l := by
      intro l hl
      refine List.filter_eq_self.mpr fun ch hch => ?_
      exact decide_eq_true (isDigit_ne_dash (hxd ch (hl hch)))
    simp only [ymdToFolder, folderToISODate, List.filter_append, List.filter_cons]
    rw [hkeep _ (List.take_subset 4 x),
        hkeep _ (fun ch hch => List.drop_subset 4 x (List.take_subset 2 _ hch)),
        hkeep _ (fun ch hch => List.drop_subset 6 x (List.take_subset 2 _ hch))]
    simp only [ne_eq, decide_not, decide_True, Bool.not_true, Bool.false_eq_true, if_false]
    have h64 : x.drop 6 = (x.drop 4).drop 2 := by
      rw [List.drop_drop]
    have hlen : (x.drop 6).length ≤ 2 := by
      simp [hx8]
    rw [List.take_of_length_le hlen, h64, List.take_append_drop, List.take_append_drop]
  · subst hy
    simp [ymdToFolder, folderToISODate, List.filter_cons, isDigit_ne_dash ha,
      isDigit_ne_dash hb, isDigit_ne_dash hc, isDigit_ne_dash hd, isDigit_ne_dash he,
      isDigit_ne_dash hf, isDigit_ne_dash hg, isDigit_ne_dash hh]

/-- Witness for C9 at `x = "20251231"`, `y = "2025-12-31"`. -/
theorem claim_C9_date_roundtrip_witness :
    (['2','0','2','5','1','2','3','1'] : List Char).length = 8 ∧
    (∀ ch ∈ (['2','0','2','5','1','2','3','1'] : List Char), ch.isDigit) ∧
    ([ '2','0','2','5','1','2','3','1'] : List Char).all Char.isDigit = true ∧
    ymdToFolder (folderToISODate ['2','0','2','5','1','2','3','1']) =
      ['2','0','2','5','1','2','3','1'] ∧
    folderToISODate (ymdToFolder ['2','0','2','5','-','1','2','-','3','1']) =
      ['2','0','2','5','-','1','2','-','3','1'] := by
  refine ⟨by decide, by decide, by decide, ?_, ?_⟩
  · exact (claim_C9_date_roundtrip ['2','0','2','5','1','2','3','1']
      ['2','0','2','5','-','1','2','-','3','1'] '2' '0' '2' '5' '1' '2' '3' '1'
      (by decide) (by decide) (by decide) rfl).1
  · exact (claim_C9_date_roundtrip ['2','0','2','5','1','2','3','1']
      ['2','0','2','5','-','1','2','-','3','1'] '2' '0' '2' '5' '1' '2' '3' '1'
      (by decide) (by decide) (by decide) rfl).2

/-- The effective index is in range whenever the time list is non-empty. -/
theorem effIndex_bounds (s : String) (n : ℕ) (h : n ≠ 0) :
    0 ≤ effIndex s n ∧ effIndex s n < n := by
  unfold effIndex
  omega

/-- Every branch of `refreshTimes` reports the clamped index as the index
used, stores its string form in the slider, and keeps the globals. -/
theorem refreshTimes_used (g1 : AppGlobals) (dom0 : DOMState) (idx : JVal)
    (ts : List JVal) (f : String → FetchOutcome) :
    (refreshTimes g1 dom0 idx ts f).usedIndex = some (effIndex dom0.sliderValue ts.length) ∧
    (refreshTimes g1 dom0 idx ts f).dom.sliderValue =
      toString (effIndex dom0.sliderValue ts.length) ∧
    (refreshTimes g1 dom0 idx ts f).g = g1 := by
  simp only [refreshTimes, effIndex]
  rcases hg : ts.getD (max 0 (min ((ts.length : ℤ) - 1)
      ((parseIntB10 (if dom0.sliderValue = "" then "0" else dom0.sliderValue)).getD 0))).toNat
      JVal.undefined with _ | _ | _ | b | q | s | xs | fs <;>
    simp only [hg] <;>
    [skip; skip; skip; skip; skip; (split <;> [skip; split]) ; skip; skip] <;>
    simp [catchClause]

/-- An all-string list yields a string at every in-range index. -/
theorem getD_isStr (ts : List JVal) (hstr : ts.all isStrJ = true) (k : ℕ)
    (hk : k < ts.length) : ∃ s, ts.getD k .undefined = .str s := by
  rw [List.getD_eq_getElem ts .undefined hk]
  have hmem := List.all_eq_true.mp hstr _ (List.getElem_mem hk)
  rcases h : ts[k] with _ | _ | _ | b | q | s | xs | fs <;>
    rw [h] at hmem <;> simp only [isStrJ, Bool.false_eq_true] at hmem
  exact ⟨s, rfl⟩

/-- With a truthy date and a successfully parsed index whose effective times
value is the non-empty array `ts`, `refresh` stores `ts` and runs the main
path `refreshTimes`. -/
theorem refresh_ok_nonempty (g : AppGlobals) (dom : DOMState) (v : JVal)
    (ts : List JVal) (gridFetch : String → FetchOutcome)
    (hdate : jsFalsy g.currentDate = false)
    (htv : jsOr (jsGetOpt v "times_utc") (.arr []) = .arr ts) (hne : ts ≠ []) :
    refresh g dom (.ok v) gridFetch =
      refreshTimes { g with times := .arr ts }
        { dom with status := "Loading " ++ g.currentKind.toUpper ++ " " ++
            jsToString g.currentDate ++ "..." }
        v ts gridFetch := by
  simp only [refresh, loadLayerIndex, fetchJson, hdate, Bool.false_eq_true, if_false, htv]
  rw [if_neg (by simpa using hne)]

/-- With a truthy date and a successfully parsed index whose times field is
missing, not a list, or an empty list, `refresh` takes the no-times branch:
slider reset, placeholder label, cleared grid, no-times status, legend
untouched, and neither an index use nor a snapshot fetch. -/
theorem refresh_ok_notimes (g : AppGlobals) (dom : DOMState) (v : JVal)
    (gridFetch : String → FetchOutcome)
    (hdate : jsFalsy g.currentDate = false)
    (htv : ∀ ts : List JVal, jsOr (jsGetOpt v "times_utc") (.arr []) = .arr ts → ts = []) :
    refresh g dom (.ok v) gridFetch =
      ⟨{ g with times := jsOr (jsGetOpt v "times_utc") (.arr []) },
       { dom with
         sliderMin := 0,
         sliderMax := 0,
         sliderValue := "0",
         timeLabel := "--:-- UTC",
         gridRects := [],
         status := "No times in " ++ g.currentKind ++ "/index.json (yet)" },
       none, none⟩ := by
  simp only [refresh, loadLayerIndex, fetchJson, hdate, Bool.false_eq_true, if_false]
  rcases h : jsOr (jsGetOpt v "times_utc") (.arr []) with _ | _ | _ | b | q | s | xs | fs <;>
    simp only []
  case arr =>
    have hxs := htv xs h
    subst hxs
    simp

/-- A failing index fetch sends `refresh` straight to the catch clause:
cleared grid, error status, data-missing legend, globals untouched. -/
theorem refresh_idx_error (g : AppGlobals) (dom : DOMState) (idxFetch : FetchOutcome)
    (gridFetch : String → FetchOutcome) (m : String)
    (hdate : jsFalsy g.currentDate = false)
    (herr : loadLayerIndex (jsToString g.currentDate) g.currentKind idxFetch = .error m) :
    refresh g dom idxFetch gridFetch =
      ⟨g, { dom with
            gridRects := [],
            status := "Error: " ++ m,
            legend := .text "Data missing or not generated yet." }, none, none⟩ := by
  simp only [refresh, hdate, Bool.false_eq_true, if_false, herr, catchClause]

/-- A failing snapshot fetch inside the main path lands in the catch clause:
cleared grid, error status, data-missing legend, snapshot recorded. -/
theorem refreshTimes_gridfail (g1 : AppGlobals) (dom0 : DOMState) (idx : JVal)
    (ts : List JVal) (f : String → FetchOutcome) (s m : String)
    (hget : ts.getD (effIndex dom0.sliderValue ts.length).toNat .undefined = .str s)
    (herr : loadGrid (jsToString g1.currentDate) g1.currentKind s (f s) = .error m) :
    (refreshTimes g1 dom0 idx ts f).dom.status = "Error: " ++ m ∧
    (refreshTimes g1 dom0 idx ts f).dom.gridRects = [] ∧
    (refreshTimes g1 dom0 idx ts f).dom.legend = .text "Data missing or not generated yet." ∧
    (refreshTimes g1 dom0 idx ts f).fetchedSnapshot = some s := by
  unfold effIndex at hget
  simp only [refreshTimes, hget, herr, catchClause]
  simp

/-! ## Claims about the render pipeline -/

/-- C1: for every times list fed from the index into the module state and
every requested slider value, the effective index used for the draw is
clamped into `[0, len(times) - 1]` when the list is non-empty (and its
string form is written back to the slider); when the list is empty the run
stops before any indexing — no index is used, no snapshot is fetched, and
the grid is cleared. -/
theorem claim_C1_effective_index_clamped (g : AppGlobals) (dom : DOMState) (v : JVal)
    (gridFetch : String → FetchOutcome) (hdate : jsFalsy g.currentDate = false) :
    (∀ ts : List JVal, jsOr (jsGetOpt v "times_utc") (.arr []) = .arr ts → ts ≠ [] →
      ∃ i : ℤ, (refresh g dom (.ok v) gridFetch).usedIndex = some i ∧
        0 ≤ i ∧ i < ts.length ∧
        (refresh g dom (.ok v) gridFetch).dom.sliderValue = toString i) ∧
    (jsOr (jsGetOpt v "times_utc") (.arr []) = .arr [] →
      (refresh g dom (.ok v) gridFetch).usedIndex = none ∧
      (refresh g dom (.ok v) gridFetch).fetchedSnapshot = none ∧
      (refresh g dom (.ok v) gridFetch).dom.gridRects = []) := by
  constructor
  · intro ts htv hne
    rw [refresh_ok_nonempty g dom v ts gridFetch hdate htv hne]
    obtain ⟨h1, h2, h3⟩ := refreshTimes_used { g with times := .arr ts }
      { dom with status := "Loading " ++ g.currentKind.toUpper ++ " " ++
          jsToString g.currentDate ++ "..." } v ts gridFetch
    have hb := effIndex_bounds dom.sliderValue ts.length (by simpa using hne)
    exact ⟨_, h1, hb.1, hb.2, h2⟩
  · intro htv
    rw [refresh_ok_notimes g dom v gridFetch hdate
      (fun ts h => by rw [htv] at h; exact (JVal.arr.inj h).symm)]
    exact ⟨rfl, rfl, rfl⟩

/-- Witness for C1 at a concrete two-element times list with the slider
holding `"5"` (clamped to `1`). -/
theorem claim_C1_effective_index_clamped_witness :
    jsFalsy (JVal.str "20250101") = false ∧
    jsOr (jsGetOpt (JVal.obj [("times_utc", JVal.arr [.str "0000", .str "1200"])]) "times_utc")
      (.arr []) = .arr [.str "0000", .str "1200"] ∧
    ([JVal.str "0000", JVal.str "1200"] : List JVal) ≠ [] ∧
    (∃ i : ℤ,
      (refresh ⟨.str "20250101", "tec", .arr []⟩ ⟨"", 0, 0, "5", "", "", .text "", []⟩
        (.ok (.obj [("times_utc", .arr [.str "0000", .str "1200"])]))
        (fun _ => .ok .null)).usedIndex = some i ∧
      0 ≤ i ∧ i < ([JVal.str "0000", JVal.str "1200"] : List JVal).length ∧
      (refresh ⟨.str "20250101", "tec", .arr []⟩ ⟨"", 0, 0, "5", "", "", .text "", []⟩
        (.ok (.obj [("times_utc", .arr [.str "0000", .str "1200"])]))
        (fun _ => .ok .null)).dom.sliderValue = toString i) :=
  ⟨rfl, rfl, by simp,
    (claim_C1_effective_index_clamped ⟨.str "20250101", "tec", .arr []⟩
      ⟨"", 0, 0, "5", "", "", .text "", []⟩
      (.obj [("times_utc", .arr [.str "0000", .str "1200"])])
      (fun _ => .ok .null) rfl).1 [.str "0000", .str "1200"] rfl (by simp)⟩

/-- C4: an index with an empty times list sends `refresh` down the valid
empty-state path: grid cleared, slider reset, placeholder time label,
no-times status, no snapshot fetch, legend untouched (in particular not the
error placeholder), selection fields preserved, times stored as the empty
list — and, `refresh` being a total function, nothing is thrown. -/
theorem claim_C4_empty_times_valid_state (g : AppGlobals) (dom : DOMState) (v : JVal)
    (gridFetch : String → FetchOutcome)
    (hdate : jsFalsy g.currentDate = false)
    (htv : jsOr (jsGetOpt v "times_utc") (.arr []) = .arr []) :
    (refresh g dom (.ok v) gridFetch).dom.gridRects = [] ∧
    (refresh g dom (.ok v) gridFetch).dom.timeLabel = "--:-- UTC" ∧
    (refresh g dom (.ok v) gridFetch).dom.status =
      "No times in " ++ g.currentKind ++ "/index.json (yet)" ∧
    (refresh g dom (.ok v) gridFetch).dom.sliderMin = 0 ∧
    (refresh g dom (.ok v) gridFetch).dom.sliderMax = 0 ∧
    (refresh g dom (.ok v) gridFetch).dom.sliderValue = "0" ∧
    (refresh g dom (.ok v) gridFetch).fetchedSnapshot = none ∧
    (refresh g dom (.ok v) gridFetch).dom.legend = dom.legend ∧
    (refresh g dom (.ok v) gridFetch).g.currentDate = g.currentDate ∧
    (refresh g dom (.ok v) gridFetch).g.currentKind = g.currentKind ∧
    (refresh g dom (.ok v) gridFetch).g.times = .arr [] := by
  rw [refresh_ok_notimes g dom v gridFetch hdate
    (fun ts h => by rw [htv] at h; exact (JVal.arr.inj h).symm)]
  exact ⟨rfl, rfl, rfl, rfl, rfl, rfl, rfl, rfl, rfl, rfl, htv⟩

/-- Witness for C4 at a concrete index `{"times_utc": []}`. -/
theorem claim_C4_empty_times_valid_state_witness :
    jsFalsy (JVal.str "20250101") = false ∧
    jsOr (jsGetOpt (JVal.obj [("times_utc", JVal.arr [])]) "times_utc") (.arr []) =
      .arr [] ∧
    (refresh ⟨.str "20250101", "no2", .arr []⟩ ⟨"", 0, 0, "0", "", "", .text "prior", []⟩
      (.ok (.obj [("times_utc", .arr [])])) (fun _ => .ok .null)).dom.status =
      "No times in " ++ "no2" ++ "/index.json (yet)" ∧
    (refresh ⟨.str "20250101", "no2", .arr []⟩ ⟨"", 0, 0, "0", "", "", .text "prior", []⟩
      (.ok (.obj [("times_utc", .arr [])])) (fun _ => .ok .null)).dom.timeLabel =
      "--:-- UTC" ∧
    (refresh ⟨.str "20250101", "no2", .arr []⟩ ⟨"", 0, 0, "0", "", "", .text "prior", []⟩
      (.ok (.obj [("times_utc", .arr [])])) (fun _ => .ok .null)).fetchedSnapshot = none :=
  ⟨rfl, rfl,
    (claim_C4_empty_times_valid_state ⟨.str "20250101", "no2", .arr []⟩
      ⟨"", 0, 0, "0", "", "", .text "prior", []⟩ (.obj [("times_utc", .arr [])])
      (fun _ => .ok .null) rfl rfl).2.2.1,
    (claim_C4_empty_times_valid_state ⟨.str "20250101", "no2", .arr []⟩
      ⟨"", 0, 0, "0", "", "", .text "prior", []⟩ (.obj [("times_utc", .arr [])])
      (fun _ => .ok .null) rfl rfl).2.1,
    (claim_C4_empty_times_valid_state ⟨.str "20250101", "no2", .arr []⟩
      ⟨"", 0, 0, "0", "", "", .text "prior", []⟩ (.obj [("times_utc", .arr [])])
      (fun _ => .ok .null) rfl rfl).2.2.2.2.2.2.1⟩

/-- C2: every resolution failure inside a `refresh` run is contained.
First conjunct: all three failure classes (HTTP non-success, malformed
JSON body, transport failure) surface as thrown errors from `fetchJson`.
Second: a failing index fetch yields a cleared grid, an `"Error: ..."`
status, the data-missing legend placeholder, and untouched globals.
Third: with a well-formed non-empty times list, a failing snapshot fetch
yields the same cleared visual state while the selection stays valid —
date and kind unchanged and the slider holding an in-range index.
`refresh` is a total function, so no exception propagates out of a run. -/
theorem claim_C2_resolution_failures_contained (g : AppGlobals) (dom : DOMState)
    (gridFetch : String → FetchOutcome) (hdate : jsFalsy g.currentDate = false) :
    (∀ url code m', fetchJson url (.notOk code) =
        .error ("HTTP " ++ toString code ++ " " ++ url) ∧
      fetchJson url (.badJson m') = .error m' ∧
      fetchJson url (.netErr m') = .error m') ∧
    (∀ (idxFetch : FetchOutcome) (m : String),
      loadLayerIndex (jsToString g.currentDate) g.currentKind idxFetch = .error m →
      (refresh g dom idxFetch gridFetch).dom.gridRects = [] ∧
      (refresh g dom idxFetch gridFetch).dom.status = "Error: " ++ m ∧
      (refresh g dom idxFetch gridFetch).dom.legend =
        .text "Data missing or not generated yet." ∧
      (refresh g dom idxFetch gridFetch).g = g) ∧
    (∀ (v : JVal) (ts : List JVal),
      jsOr (jsGetOpt v "times_utc") (.arr []) = .arr ts → ts ≠ [] →
      ts.all isStrJ = true →
      (∀ s : String, ∃ mm,
        loadGrid (jsToString g.currentDate) g.currentKind s (gridFetch s) = .error mm) →
      ∃ (mm : String) (i : ℤ),
        (refresh g dom (.ok v) gridFetch).dom.gridRects = [] ∧
        (refresh g dom (.ok v) gridFetch).dom.status = "Error: " ++ mm ∧
        (refresh g dom (.ok v) gridFetch).dom.legend =
          .text "Data missing or not generated yet." ∧
        (refresh g dom (.ok v) gridFetch).g.currentDate = g.currentDate ∧
        (refresh g dom (.ok v) gridFetch).g.currentKind = g.currentKind ∧
        (refresh g dom (.ok v) gridFetch).dom.sliderValue = toString i ∧
        0 ≤ i ∧ i < ts.length) := by
  refine ⟨fun url code m' => ⟨rfl, rfl, rfl⟩, ?_, ?_⟩
  · intro idxFetch m herr
    rw [refresh_idx_error g dom idxFetch gridFetch m hdate herr]
    exact ⟨rfl, rfl, rfl, rfl⟩
  · intro v ts htv hne hstr hfail
    rw [refresh_ok_nonempty g dom v ts gridFetch hdate htv hne]
    obtain ⟨hb0, hb1⟩ := effIndex_bounds dom.sliderValue ts.length (by simpa using hne)
    obtain ⟨s, hget⟩ := getD_isStr ts hstr (effIndex dom.sliderValue ts.length).toNat
      (by omega)
    obtain ⟨mm, herr⟩ := hfail s
    obtain ⟨he1, he2, he3, he4⟩ := refreshTimes_gridfail { g with times := .arr ts }
      { dom with status := "Loading " ++ g.currentKind.toUpper ++ " " ++
          jsToString g.currentDate ++ "..." } v ts gridFetch s mm hget herr
    obtain ⟨hu1, hu2, hu3⟩ := refreshTimes_used { g with times := .arr ts }
      { dom with status := "Loading " ++ g.currentKind.toUpper ++ " " ++
          jsToString g.currentDate ++ "..." } v ts gridFetch
    refine ⟨mm, effIndex dom.sliderValue ts.length, he2, he1, he3, ?_, ?_, hu2, hb0, hb1⟩
    · rw [hu3]
    · rw [hu3]

/-- Witness for C2: a concrete run where the snapshot fetch rejects with a
transport failure. -/
theorem claim_C2_resolution_failures_contained_witness :
    jsFalsy (JVal.str "20250101") = false ∧
    jsOr (jsGetOpt (JVal.obj [("times_utc", JVal.arr [.str "0000"])]) "times_utc") (.arr []) =
      .arr [.str "0000"] ∧
    ([JVal.str "0000"] : List JVal) ≠ [] ∧
    ([JVal.str "0000"] : List JVal).all isStrJ = true ∧
    (∀ s : String, ∃ mm,
      loadGrid (jsToString (JVal.str "20250101")) "tec" s (FetchOutcome.netErr "Failed to fetch") =
        .error mm) ∧
    (∃ (mm : String) (i : ℤ),
      (refresh ⟨.str "20250101", "tec", .arr []⟩ ⟨"", 0, 0, "0", "", "", .text "", []⟩
        (.ok (.obj [("times_utc", .arr [.str "0000"])]))
        (fun _ => .netErr "Failed to fetch")).dom.gridRects = [] ∧
      (refresh ⟨.str "20250101", "tec", .arr []⟩ ⟨"", 0, 0, "0", "", "", .text "", []⟩
        (.ok (.obj [("times_utc", .arr [.str "0000"])]))
        (fun _ => .netErr "Failed to fetch")).dom.status = "Error: " ++ mm ∧
      (refresh ⟨.str "20250101", "tec", .arr []⟩ ⟨"", 0, 0, "0", "", "", .text "", []⟩
        (.ok (.obj [("times_utc", .arr [.str "0000"])]))
        (fun _ => .netErr "Failed to fetch")).dom.legend =
        .text "Data missing or not generated yet." ∧
      (refresh ⟨.str "20250101", "tec", .arr []⟩ ⟨"", 0, 0, "0", "", "", .text "", []⟩
        (.ok (.obj [("times_utc", .arr [.str "0000"])]))
        (fun _ => .netErr "Failed to fetch")).g.currentDate = .str "20250101" ∧
      (refresh ⟨.str "20250101", "tec", .arr []⟩ ⟨"", 0, 0, "0", "", "", .text "", []⟩
        (.ok (.obj [("times_utc", .arr [.str "0000"])]))
        (fun _ => .netErr "Failed to fetch")).g.currentKind = "tec" ∧
      (refresh ⟨.str "20250101", "tec", .arr []⟩ ⟨"", 0, 0, "0", "", "", .text "", []⟩
        (.ok (.obj [("times_utc", .arr [.str "0000"])]))
        (fun _ => .netErr "Failed to fetch")).dom.sliderValue = toString i ∧
      0 ≤ i ∧ i < ([JVal.str "0000"] : List JVal).length) :=
  ⟨rfl, rfl, by simp, rfl, fun s => ⟨"Failed to fetch", rfl⟩,
    (claim_C2_resolution_failures_contained ⟨.str "20250101", "tec", .arr []⟩
      ⟨"", 0, 0, "0", "", "", .text "", []⟩ (fun _ => .netErr "Failed to fetch") rfl).2.2
      (.obj [("times_utc", .arr [.str "0000"])]) [.str "0000"] rfl (by simp) rfl
      (fun s => ⟨"Failed to fetch", rfl⟩)⟩

/-- C3 fails as stated: `loadLayerIndex` performs no structural validation.
Fetching a JSON body `{}` — present but with the required times field
missing — succeeds rather than failing with a malformed-data error. -/
theorem claim_C3_counterexample :
    loadLayerIndex "20250101" "tec" (.ok (.obj [])) = .ok (.obj []) ∧
    jsGetOpt (.obj []) "times_utc" = .undefined := ⟨rfl, rfl⟩

/-- C3 (amended): `loadLayerIndex` is a bare fetch that returns any parsed
JSON value unchanged — a structurally invalid index is not rejected.  A
missing or non-list `times_utc` is instead routed by `refresh` to the
no-times branch (not an error), and the optional fields are filled with
their defaults at the point of use in `drawGrid` (`cell` 2.0/2.0, `range`
0/1, `unit` `""`). -/
theorem claim_C3_loadLayerIndex_no_validation (ymd kind : String) :
    (∀ v : JVal, loadLayerIndex ymd kind (.ok v) = .ok v) ∧
    (∀ (g : AppGlobals) (dom : DOMState) (v : JVal) (gridFetch : String → FetchOutcome),
      jsFalsy g.currentDate = false →
      (∀ ts : List JVal, jsOr (jsGetOpt v "times_utc") (.arr []) = .arr ts → ts = []) →
      (refresh g dom (.ok v) gridFetch).dom.status =
        "No times in " ++ g.currentKind ++ "/index.json (yet)") ∧
    (∀ (prior : List Rect) (c : JVal) (t dstr : String), notNullish c = true →
      drawGrid prior (.obj [("cells", .arr [c])]) (.obj []) kind (.str dstr) t =
        .ok (.html kind.toUpper (folderToISODateS dstr) t 0 1 (.str ""),
             [mkRect (.num 2) (.num 2) 0 1 (.str "") c])) := by
  refine ⟨fun v => rfl, ?_, ?_⟩
  · intro g dom v gridFetch hdate htv
    rw [refresh_ok_notimes g dom v gridFetch hdate htv]
  · intro prior c t dstr hc
    simp [drawGrid, jsGetOpt, jsNullish, jsOr, jsFalsy, hc]

/-- Witness for C3 (amended) at a concrete invalid index (`times_utc` is a
string, not a list) and a concrete cell. -/
theorem claim_C3_loadLayerIndex_no_validation_witness :
    jsFalsy (JVal.str "20250101") = false ∧
    (∀ ts : List JVal,
      jsOr (jsGetOpt (JVal.obj [("times_utc", JVal.str "x")]) "times_utc") (.arr []) =
        .arr ts → ts = []) ∧
    notNullish (JVal.obj [("lat", JVal.num 0), ("lon", JVal.num 0), ("val", JVal.num 5)]) =
      true ∧
    loadLayerIndex "20250101" "tec" (.ok (.obj [("times_utc", .str "x")])) =
      .ok (.obj [("times_utc", .str "x")]) ∧
    (refresh ⟨.str "20250101", "tec", .arr []⟩ ⟨"", 0, 0, "0", "", "", .text "", []⟩
      (.ok (.obj [("times_utc", .str "x")])) (fun _ => .ok .null)).dom.status =
      "No times in " ++ "tec" ++ "/index.json (yet)" ∧
    drawGrid [] (.obj [("cells", .arr [.obj [("lat", .num 0), ("lon", .num 0), ("val", .num 5)]])])
      (.obj []) "tec" (.str "20250101") "00:00 UTC" =
      .ok (.html "tec".toUpper (folderToISODateS "20250101") "00:00 UTC" 0 1 (.str ""),
           [mkRect (.num 2) (.num 2) 0 1 (.str "")
              (.obj [("lat", .num 0), ("lon", .num 0), ("val", .num 5)])]) :=
  by
  have hnl : ∀ ts : List JVal,
      jsOr (jsGetOpt (JVal.obj [("times_utc", JVal.str "x")]) "times_utc") (.arr []) =
        .arr ts → ts = [] := by
    intro ts h
    rw [show jsOr (jsGetOpt (JVal.obj [("times_utc", JVal.str "x")]) "times_utc")
      (JVal.arr []) = JVal.str "x" from rfl] at h
    cases h
  exact ⟨rfl, hnl, rfl,
    (claim_C3_loadLayerIndex_no_validation "20250101" "tec").1 _,
    (claim_C3_loadLayerIndex_no_validation "20250101" "tec").2.1
      ⟨.str "20250101", "tec", .arr []⟩ ⟨"", 0, 0, "0", "", "", .text "", []⟩
      (.obj [("times_utc", .str "x")]) (fun _ => .ok .null) rfl hnl,
    (claim_C3_loadLayerIndex_no_validation "20250101" "tec").2.2 []
      (.obj [("lat", .num 0), ("lon", .num 0), ("val", .num 5)]) "00:00 UTC" "20250101" rfl⟩

/-- C10: `drawGrid` clears the layer group before adding anything, so its
result does not depend on the previously drawn rectangles: after a
successful draw the layer holds exactly one rectangle per cell of the
latest snapshot; and a snapshot with no `cells` field is drawn as an empty
grid rather than raising an error. -/
theorem claim_C10_drawGrid_replaces (prior : List Rect) (grid idx : JVal)
    (kind dstr t : String) (vmin vmax : ℚ) (cs : List JVal)
    (hvmin : jsNullish (jsGetOpt (jsGetOpt idx "range") "vmin") (.num 0) = .num vmin)
    (hvmax : jsNullish (jsGetOpt (jsGetOpt idx "range") "vmax") (.num 1) = .num vmax)
    (hcells : jsOr (jsGetOpt grid "cells") (.arr []) = .arr cs)
    (hok : cs.all notNullish = true) :
    drawGrid prior grid idx kind (.str dstr) t =
      .ok (.html kind.toUpper (folderToISODateS dstr) t vmin vmax
             (jsNullish (jsGetOpt idx "unit") (.str "")),
           cs.map (mkRect (jsNullish (jsGetOpt (jsGetOpt idx "cell") "dlat") (.num 2))
                          (jsNullish (jsGetOpt (jsGetOpt idx "cell") "dlon") (.num 2))
                          vmin vmax (jsNullish (jsGetOpt idx "unit") (.str "")))) ∧
    (∀ g2 : JVal, jsGetOpt g2 "cells" = .undefined →
      drawGrid prior g2 idx kind (.str dstr) t =
        .ok (.html kind.toUpper (folderToISODateS dstr) t vmin vmax
               (jsNullish (jsGetOpt idx "unit") (.str "")), [])) := by
  constructor
  · simp only [drawGrid, hvmin, hvmax, hcells, hok, if_true]
  · intro g2 hg2
    simp only [drawGrid, hvmin, hvmax, hg2, jsOr, jsFalsy]
    simp

/-- Witness for C10 at a concrete one-cell snapshot and explicit metadata,
with a non-empty prior layer being replaced. -/
theorem claim_C10_drawGrid_replaces_witness :
    jsNullish (jsGetOpt (jsGetOpt (JVal.obj [("range",
        JVal.obj [("vmin", JVal.num 0), ("vmax", JVal.num 10)])]) "range") "vmin") (.num 0) =
      .num 0 ∧
    jsNullish (jsGetOpt (jsGetOpt (JVal.obj [("range",
        JVal.obj [("vmin", JVal.num 0), ("vmax", JVal.num 10)])]) "range") "vmax") (.num 1) =
      .num 10 ∧
    jsOr (jsGetOpt (JVal.obj [("cells",
        JVal.arr [.obj [("lat", .num 0), ("lon", .num 0), ("val", .num 5)]])]) "cells")
      (.arr []) = .arr [.obj [("lat", .num 0), ("lon", .num 0), ("val", .num 5)]] ∧
    ([JVal.obj [("lat", .num 0), ("lon", .num 0), ("val", .num 5)]] : List JVal).all
      notNullish = true ∧
    drawGrid [⟨(.num 9, .num 9), (.num 9, .num 9), ⟨.fin 0, .fin 0, .fin 0, 0⟩, "stale"⟩]
      (.obj [("cells", .arr [.obj [("lat", .num 0), ("lon", .num 0), ("val", .num 5)]])])
      (.obj [("range", .obj [("vmin", .num 0), ("vmax", .num 10)])])
      "tec" (.str "20250101") "12:00 UTC" =
      .ok (.html "tec".toUpper (folderToISODateS "20250101") "12:00 UTC" 0 10
             (jsNullish (jsGetOpt (JVal.obj [("range",
                JVal.obj [("vmin", JVal.num 0), ("vmax", JVal.num 10)])]) "unit") (.str "")),
           [mkRect (.num 2) (.num 2) 0 10
              (jsNullish (jsGetOpt (JVal.obj [("range",
                 JVal.obj [("vmin", JVal.num 0), ("vmax", JVal.num 10)])]) "unit") (.str ""))
              (.obj [("lat", .num 0), ("lon", .num 0), ("val", .num 5)])]) :=
  ⟨rfl, rfl, rfl, rfl,
    (claim_C10_drawGrid_replaces
      [⟨(.num 9, .num 9), (.num 9, .num 9), ⟨.fin 0, .fin 0, .fin 0, 0⟩, "stale"⟩]
      (.obj [("cells", .arr [.obj [("lat", .num 0), ("lon", .num 0), ("val", .num 5)]])])
      (.obj [("range", .obj [("vmin", .num 0), ("vmax", .num 10)])])
      "tec" "20250101" "12:00 UTC" 0 10
      [.obj [("lat", .num 0), ("lon", .num 0), ("val", .num 5)]]
      rfl rfl rfl rfl).1⟩

/-- C5: when the latest-date pointer fetch fails at boot, the catch block
falls back — without anything escaping — to the current UTC calendar date
(`toISOString` always formats in UTC; `todayUtcIso` is its first ten
characters): the date input shows the ISO day, `currentDate` holds its
8-digit folder form, and the run still ends in a `refresh` attempt on that
fallback selection. -/
theorem claim_C5_boot_fallback_utc (latest : FetchOutcome) (todayUtcIso : String)
    (g : AppGlobals) (dom : DOMState) (idxFetch : FetchOutcome)
    (gridFetch : String → FetchOutcome) (m : String)
    (herr : loadLatestDate latest = .error m) :
    boot latest todayUtcIso g dom idxFetch gridFetch =
      refresh { g with currentDate := .str (ymdToFolderS todayUtcIso) }
        { dom with dateInputValue := todayUtcIso } idxFetch gridFetch ∧
    ({ g with currentDate := .str (ymdToFolderS todayUtcIso) } : AppGlobals).currentDate =
      .str (ymdToFolderS todayUtcIso) := by
  constructor
  · simp only [boot, setDateFromLatest, herr, Bool.false_eq_true, if_false]
  · rfl

/-- Witness for C5: `latest.json` returns HTTP 500 on 2025-10-12. -/
theorem claim_C5_boot_fallback_utc_witness :
    loadLatestDate (.notOk 500) = .error "HTTP 500 ./data/latest.json" ∧
    boot (.notOk 500) "2025-10-12" ⟨.null, "tec", .arr []⟩ ⟨"", 0, 0, "0", "", "", .text "", []⟩
      (.notOk 404) (fun _ => .notOk 404) =
      refresh ⟨.str (ymdToFolderS "2025-10-12"), "tec", .arr []⟩
        ⟨"2025-10-12", 0, 0, "0", "", "", .text "", []⟩ (.notOk 404) (fun _ => .notOk 404) :=
  ⟨rfl,
    (claim_C5_boot_fallback_utc (.notOk 500) "2025-10-12" ⟨.null, "tec", .arr []⟩
      ⟨"", 0, 0, "0", "", "", .text "", []⟩ (.notOk 404) (fun _ => .notOk 404)
      "HTTP 500 ./data/latest.json" rfl).1⟩

end App
